import Mathlib

/-!
# Verification of `text2term/onto_cache.py`

A shallow embedding of the ontology-cache module of the `text2term`
repository.  The module manages an on-disk cache of serialized ontology
term indexes, keyed by an ontology acronym, rooted at a process-wide
configurable base directory (the global `DEFAULT_CACHE_FOLDER`).

The filesystem is modelled as a finite set of paths (a path is a list of
components) together with a finite map from artifact paths to their
serialized data.  `os.path.join(folder, name)` with a nonempty relative
`name` appends one component; joining with the empty string yields
`folder + "/"`, which names the same directory, so we identify it with
`folder` itself.  `os.makedirs(p, exist_ok=True)` adds `p` and all its
ancestors; `shutil.rmtree(p)` removes `p` and everything below it;
`os.path.exists` is membership.

Module-level mutable state (`DEFAULT_CACHE_FOLDER`, the `sys.stderr`
stream, and the patched `urllib.request.urlopen`) is threaded explicitly.
-/

/-- A filesystem path, as a list of components (`["cache", "efo"]` stands
for `cache/efo`). -/
abbrev FsPath := List String

/-- `os.path.join(folder, name)` for a relative single-component `name`:
appends the component; joining with `""` names the folder itself. -/
def joinPath (folder : FsPath) (name : String) : FsPath :=
  if name = "" then folder else folder ++ [name]

/-- All ancestors of a path, the path itself included (and the root `[]`). -/
def pathAncestors : FsPath → List FsPath
  | [] => [[]]
  | x :: xs => [] :: (pathAncestors xs).map (fun p => x :: p)

/-- The filesystem: the set of existing paths (directories and files alike),
and the data stored at artifact file paths. -/
structure FS where
  paths : List FsPath
  contents : List (FsPath × Nat)
deriving Repr, DecidableEq

/-- `os.path.exists`. -/
def FS.pathExists (fs : FS) (p : FsPath) : Bool :=
  fs.paths.contains p

/-- Add a single path to the set of existing paths (idempotent). -/
def FS.addPath (fs : FS) (p : FsPath) : FS :=
  if fs.paths.contains p then fs else { fs with paths := fs.paths ++ [p] }

/-- `os.makedirs(p, exist_ok=True)`: create `p` and all missing ancestors. -/
def FS.makedirs (fs : FS) (p : FsPath) : FS :=
  (pathAncestors p).foldl FS.addPath fs

/-- `shutil.rmtree(p)`: remove `p` and everything below it, artifact data
included. -/
def FS.rmtree (fs : FS) (p : FsPath) : FS :=
  { paths := fs.paths.filter (fun q => !(p.isPrefixOf q)),
    contents := fs.contents.filter (fun qc => !(p.isPrefixOf qc.1)) }

/-- Write serialized data at a file path (creating the path, overwriting
any previous data there). -/
def FS.writeFile (fs : FS) (p : FsPath) (data : Nat) : FS :=
  { paths := (fs.addPath p).paths,
    contents := (fs.contents.filter (fun qc => qc.1 ≠ p)) ++ [(p, data)] }

/-- A real filesystem is closed under taking the parent of an existing
path; decidable form used as a hypothesis where a theorem needs it. -/
def FS.prefixClosed (fs : FS) : Bool :=
  fs.paths.all (fun p => p = [] || fs.paths.contains p.dropLast)

/-- The module-level mutable state of `onto_cache.py`: the filesystem, the
global `DEFAULT_CACHE_FOLDER`, and the `sys.stderr` stream (a list of the
strings written so far). -/
structure CacheState where
  fs : FS
  defaultCacheFolder : FsPath
  stderr : List String
deriving Repr, DecidableEq

/-- The initial value of the module global: `DEFAULT_CACHE_FOLDER = "cache"`. -/
def initialDefaultCacheFolder : FsPath := ["cache"]

/-- `set_cache_folder(folder_path)`: assigns the global
`DEFAULT_CACHE_FOLDER`, creates the directory if it does not exist, and
returns the new folder path. -/
def set_cache_folder (folder_path : FsPath) (s : CacheState) :
    FsPath × CacheState :=
  let s1 : CacheState :=
    { s with defaultCacheFolder := folder_path,
             fs := s.fs.makedirs folder_path }
  (folder_path, s1)

/-- `get_cache_folder()`: returns the current global `DEFAULT_CACHE_FOLDER`. -/
def get_cache_folder (s : CacheState) : FsPath :=
  s.defaultCacheFolder

/-- The resolution rule used by every function with an optional
`cache_folder=None` parameter:
`cache_folder if cache_folder is not None else DEFAULT_CACHE_FOLDER`. -/
def resolveFolder (cache_folder : Option FsPath) (s : CacheState) : FsPath :=
  match cache_folder with
  | some f => f
  | none => s.defaultCacheFolder

/-- `cache_exists(ontology_acronym='', cache_folder=None)`: returns
`os.path.exists(os.path.join(cache_folder, ontology_acronym))`. -/
def cache_exists (ontology_acronym : String) (cache_folder : Option FsPath)
    (s : CacheState) : Bool :=
  s.fs.pathExists (joinPath (resolveFolder cache_folder s) ontology_acronym)

/-- `clear_cache(ontology_acronym='', cache_folder=None)`: removes the
per-acronym directory (or, with the empty acronym, the whole cache
folder) when it exists, reporting to stderr either way.  The `OSError`
branch of the source is unreachable in this model, where `rmtree` always
succeeds. -/
def clear_cache (ontology_acronym : String) (cache_folder : Option FsPath)
    (s : CacheState) : CacheState :=
  let cache_folder1 := resolveFolder cache_folder s
  let cache_dir :=
    if ontology_acronym ≠ "" then joinPath cache_folder1 ontology_acronym
    else cache_folder1
  if s.fs.pathExists cache_dir then
    { s with fs := s.fs.rmtree cache_dir,
             stderr := s.stderr ++ ["Cache has been cleared successfully\n"] }
  else
    { s with stderr := s.stderr ++
        ["Cache directory " ++ String.intercalate "/" cache_dir ++
         " does not exist\n"] }

/-- One row of the ontology registry CSV: its `acronym` and `url` columns
(the columns `cache_ontology_set` reads via `row.acronym` / `row.url`). -/
structure RegRow where
  acronym : String
  url : String
deriving Repr, DecidableEq

/-- The external call `text2term.cache_ontology(url, acronym, cache_folder)`
made by `cache_ontology_set` for each registry row.  It lives outside this
module; we take it as a parameter: given the url, the acronym, the cache
folder and the filesystem, it either succeeds with the cache object it
returns (abstracted to a `Nat`) or raises an exception carrying a message,
in both cases possibly having written to the filesystem. -/
abbrev CacheOracle := String → String → FsPath → FS → FS × Except String Nat

/-- A Python `dict` keyed by strings, as an association list;
`d.update({k: v})` replaces the value in place when the key is present
and appends otherwise. -/
def dictUpdate (d : List (String × Nat)) (k : String) (v : Nat) :
    List (String × Nat) :=
  if d.any (fun kv => kv.1 = k) then
    d.map (fun kv => if kv.1 = k then (k, v) else kv)
  else d ++ [(k, v)]

/-- Key membership in a Python dict. -/
def dictHasKey (d : List (String × Nat)) (k : String) : Bool :=
  d.any (fun kv => kv.1 = k)

/-- The per-row loop of `cache_ontology_set`: for each registry row, call
`text2term.cache_ontology`; on success record `{row.acronym: cache}` in the
dict, on any exception write the error message to stderr and continue with
the next row.  (The `owlready2.default_world.ontologies.clear()` call after
each row mutates only the state of the external ontology-loading library,
which is outside the modelled state.) -/
def cacheRows (oracle : CacheOracle) (cf : FsPath) :
    List RegRow → List (String × Nat) → CacheState →
    List (String × Nat) × CacheState
  | [], cache_set, s => (cache_set, s)
  | row :: rest, cache_set, s =>
    let r := oracle row.url row.acronym cf s.fs
    match r.2 with
    | Except.ok cache =>
        cacheRows oracle cf rest (dictUpdate cache_set row.acronym cache)
          { s with fs := r.1 }
    | Except.error err =>
        cacheRows oracle cf rest cache_set
          { s with fs := r.1,
                   stderr := s.stderr ++
                     ["Could not cache ontology " ++ row.acronym ++
                      " due to error: " ++ err ++ "\n"] }

/-- The exception `cache_ontology_set` raises when the registry file is
missing. -/
inductive RegistryError where
  | fileNotFound (path : FsPath)
deriving Repr, DecidableEq

/-- `cache_ontology_set(ontology_registry_path, cache_folder=None)`:
resolves the cache folder, creates it, raises `FileNotFoundError` if the
registry path does not exist, otherwise reads the registry rows
(`pd.read_csv`; the rows the file parses to are the `rows` parameter) and
caches each row via `cacheRows`, returning the dict of successes.  The
mutated module state is returned alongside the result in either case. -/
def cache_ontology_set (oracle : CacheOracle) (ontology_registry_path : FsPath)
    (rows : List RegRow) (cache_folder : Option FsPath) (s : CacheState) :
    Except RegistryError (List (String × Nat)) × CacheState :=
  let cache_folder1 := resolveFolder cache_folder s
  let s1 : CacheState := { s with fs := s.fs.makedirs cache_folder1 }
  if s1.fs.pathExists ontology_registry_path then
    let r := cacheRows oracle cache_folder1 rows [] s1
    (Except.ok r.1, r.2)
  else
    (Except.error (RegistryError.fileNotFound ontology_registry_path), s1)

/-- The instance produced by `OntologyCache.__init__`: its instance
attributes `acronym`, `cache_folder` and `ontology`. -/
structure OntologyCache where
  acronym : String
  cache_folder : FsPath
  ontology : FsPath
deriving Repr, DecidableEq

/-- `OntologyCache.__init__(self, ontology_acronym, cache_folder=None)`:
sets `self.acronym`, resolves and sets `self.cache_folder`, sets
`self.ontology` to the per-acronym path, and creates the cache folder
directory if it does not exist. -/
def OntologyCache.init (ontology_acronym : String)
    (cache_folder : Option FsPath) (s : CacheState) :
    OntologyCache × CacheState :=
  let cf := resolveFolder cache_folder s
  let obj : OntologyCache :=
    { acronym := ontology_acronym,
      cache_folder := cf,
      ontology := joinPath cf ontology_acronym }
  (obj, { s with fs := s.fs.makedirs cf })

/-- `OntologyCache.clear_cache(self)`: delegates to the module-level
`clear_cache` with the instance's acronym and folder. -/
def OntologyCache.clearCacheMethod (self : OntologyCache) (s : CacheState) :
    CacheState :=
  clear_cache self.acronym (some self.cache_folder) s

/-- `OntologyCache.cache_exists(self)`: delegates to the module-level
`cache_exists` with the instance's acronym and folder. -/
def OntologyCache.cacheExistsMethod (self : OntologyCache) (s : CacheState) :
    Bool :=
  cache_exists self.acronym (some self.cache_folder) s

/-!
## Spec-modelled store and load

The repository functions that write a cache entry
(`text2term.cache_ontology`) and read one back (`map_terms` with
`use_cache=True`) are not among the provided source files; only this
caching module is.  Their cache-layout behaviour is modelled from the
spec: one directory per acronym under the root, holding one serialized
TermIndex artifact; `load` fails with `CacheMiss` when the entry
(directory) does not exist and with `CacheCorrupt` when the artifact
inside cannot be deserialized.
-/

/-- The serialized artifact file inside an acronym's cache directory
(`<acronym>-term-details.pickle` in the repository's layout). -/
def artifactPath (cache_folder : FsPath) (acronym : String) : FsPath :=
  joinPath cache_folder acronym ++ [acronym ++ "-term-details.pickle"]

/-- Modelled from the spec: `store(acronym, index)` — the cache-writing
path of `text2term.cache_ontology`, which is not under the provided
sources.  Creates the per-acronym directory under the resolved cache
folder and writes the serialized TermIndex artifact there, overwriting
any prior entry. -/
def store (acronym : String) (index : Nat) (cache_folder : Option FsPath)
    (s : CacheState) : CacheState :=
  let cf := resolveFolder cache_folder s
  { s with fs := ((s.fs.makedirs (joinPath cf acronym)).writeFile
      (artifactPath cf acronym) index) }

/-- The errors of the spec's cache-load contract. -/
inductive CacheError where
  | cacheMiss
  | cacheCorrupt
deriving Repr, DecidableEq

/-- Modelled from the spec: `load(acronym) -> TermIndex` — the cache-read
path of `map_terms(use_cache=True)`, which is not under the provided
sources.  Fails with `CacheMiss` when no entry (per-acronym directory)
exists, with `CacheCorrupt` when the artifact inside cannot be read back,
and otherwise returns the deserialized index. -/
def load (acronym : String) (cache_folder : Option FsPath) (s : CacheState) :
    Except CacheError Nat :=
  let cf := resolveFolder cache_folder s
  if s.fs.pathExists (joinPath cf acronym) then
    match s.fs.contents.lookup (artifactPath cf acronym) with
    | some d => Except.ok d
    | none => Except.error CacheError.cacheCorrupt
  else Except.error CacheError.cacheMiss

/-!
## The SSL transport patch

`onto_cache.py` defines `disable_ssl_verification()`, which replaces the
process-wide `urllib.request.urlopen` with a wrapper that injects an
unverified SSL context whenever the caller passes none — and the module
calls it unconditionally at import time (the top-level statement
`disable_ssl_verification()` right after the definition).
-/

/-- An SSL context; `verified = false` is
`ssl._create_unverified_context()`. -/
structure SSLContext where
  verified : Bool
deriving Repr, DecidableEq

/-- The unverified context created by `disable_ssl_verification`. -/
def unverifiedContext : SSLContext := { verified := false }

/-- The process-wide `urllib.request.urlopen` function value: either the
library original, or a `patched_urlopen` closure wrapping whatever the
function was when the patch was applied, with the context it injects. -/
inductive UrlOpenFn where
  | original
  | patched (saved : UrlOpenFn) (ctx : SSLContext)
deriving Repr, DecidableEq

/-- The SSL context a call `urlopen(url, ...)` effectively runs with,
given the context the caller passed (if any): the library original uses
the caller's context (default verification when none); `patched_urlopen`
adds its context to the kwargs only if the caller supplied none, then
calls the saved function. -/
def effectiveContext : UrlOpenFn → Option SSLContext → Option SSLContext
  | UrlOpenFn.original, explicit => explicit
  | UrlOpenFn.patched saved ctx, explicit =>
    match explicit with
    | some c => effectiveContext saved (some c)
    | none => effectiveContext saved (some ctx)

/-- The module-level network state: the current value of
`urllib.request.urlopen`. -/
structure NetState where
  urlopen : UrlOpenFn
deriving Repr, DecidableEq

/-- `disable_ssl_verification()`: saves the current `urlopen` and replaces
it with the patched closure injecting the unverified context. -/
def disable_ssl_verification (s : NetState) : NetState :=
  { s with urlopen := UrlOpenFn.patched s.urlopen unverifiedContext }

/-- The import-time effect of the module: the top-level statement
`disable_ssl_verification()` (line 45 of `onto_cache.py`, commented
"Call this immediately to fix SSL issues") runs on module import. -/
def ontoCacheImport (s : NetState) : NetState :=
  disable_ssl_verification s

/-!
## Python attribute lookup on `OntologyCache` instances

`OntologyCache` defines a method `acronym(self)` on the class, while
`__init__` assigns the instance attribute `self.acronym`.  Python
attribute lookup consults the instance `__dict__` before the class, so
the instance attribute shadows the method.  We model the two dictionaries
and the lookup.
-/

/-- A Python attribute value as found on an `OntologyCache` object:
a string, a path-valued string, or a bound method. -/
inductive PyAttr where
  | strVal (s : String)
  | pathVal (p : FsPath)
  | boundMethod (methodName : String)
deriving Repr, DecidableEq

/-- Whether an attribute value is callable. -/
def PyAttr.isCallable : PyAttr → Bool
  | PyAttr.boundMethod _ => true
  | _ => false

/-- The class `__dict__` of `OntologyCache`: its four methods (besides
`__init__`), among them `acronym`. -/
def ontologyCacheClassDict : List (String × PyAttr) :=
  [("map_terms", PyAttr.boundMethod "map_terms"),
   ("clear_cache", PyAttr.boundMethod "clear_cache"),
   ("cache_exists", PyAttr.boundMethod "cache_exists"),
   ("acronym", PyAttr.boundMethod "acronym")]

/-- The instance `__dict__` after `__init__(self, a, cache_folder)` ran:
the three attributes it assigns. -/
def ontologyCacheInstanceDict (a : String) (cf : FsPath) :
    List (String × PyAttr) :=
  [("acronym", PyAttr.strVal a),
   ("cache_folder", PyAttr.pathVal cf),
   ("ontology", PyAttr.pathVal (joinPath cf a))]

/-- Python attribute lookup on an instance: the instance `__dict__` is
consulted first, then the class `__dict__`. -/
def pyGetAttr (instanceDict classDict : List (String × PyAttr))
    (name : String) : Option PyAttr :=
  match instanceDict.lookup name with
  | some v => some v
  | none => classDict.lookup name

/-!
## Filesystem lemmas
-/

theorem FS.pathExists_true_iff (fs : FS) (p : FsPath) :
    fs.pathExists p = true ↔ p ∈ fs.paths := by
  simp [FS.pathExists]

theorem FS.mem_addPath (fs : FS) (p q : FsPath) :
    q ∈ (fs.addPath p).paths ↔ q ∈ fs.paths ∨ q = p := by
  unfold FS.addPath
  split
  · rename_i h
    constructor
    · exact Or.inl
    · rintro (hq | rfl)
      · exact hq
      · simpa using h
  · simp

theorem FS.contents_addPath (fs : FS) (p : FsPath) :
    (fs.addPath p).contents = fs.contents := by
  unfold FS.addPath
  split <;> rfl

theorem FS.mem_foldl_addPath (l : List FsPath) (fs : FS) (q : FsPath) :
    q ∈ (l.foldl FS.addPath fs).paths ↔ q ∈ fs.paths ∨ q ∈ l := by
  induction l generalizing fs with
  | nil => simp
  | cons a l ih =>
    simp only [List.foldl_cons, ih, FS.mem_addPath, List.mem_cons]
    tauto

theorem FS.contents_foldl_addPath (l : List FsPath) (fs : FS) :
    (l.foldl FS.addPath fs).contents = fs.contents := by
  induction l generalizing fs with
  | nil => rfl
  | cons a l ih => simp only [List.foldl_cons, ih, FS.contents_addPath]

theorem FS.mem_makedirs (fs : FS) (p q : FsPath) :
    q ∈ (fs.makedirs p).paths ↔ q ∈ fs.paths ∨ q ∈ pathAncestors p := by
  unfold FS.makedirs
  exact FS.mem_foldl_addPath _ _ _

theorem FS.contents_makedirs (fs : FS) (p : FsPath) :
    (fs.makedirs p).contents = fs.contents := by
  unfold FS.makedirs
  exact FS.contents_foldl_addPath _ _

theorem self_mem_pathAncestors (p : FsPath) : p ∈ pathAncestors p := by
  induction p with
  | nil => simp [pathAncestors]
  | cons x xs ih =>
    simp only [pathAncestors, List.mem_cons, List.mem_map]
    exact Or.inr ⟨xs, ih, rfl⟩

theorem FS.pathExists_makedirs_self (fs : FS) (p : FsPath) :
    (fs.makedirs p).pathExists p = true := by
  rw [FS.pathExists_true_iff, FS.mem_makedirs]
  exact Or.inr (self_mem_pathAncestors p)

theorem FS.pathExists_makedirs_mono (fs : FS) (p q : FsPath)
    (h : fs.pathExists q = true) : (fs.makedirs p).pathExists q = true := by
  rw [FS.pathExists_true_iff] at h ⊢
  rw [FS.mem_makedirs]
  exact Or.inl h

theorem FS.mem_rmtree (fs : FS) (p q : FsPath) :
    q ∈ (fs.rmtree p).paths ↔ q ∈ fs.paths ∧ p.isPrefixOf q = false := by
  simp [FS.rmtree, List.mem_filter]

theorem FS.mem_writeFile (fs : FS) (p q : FsPath) (d : Nat) :
    q ∈ (fs.writeFile p d).paths ↔ q ∈ fs.paths ∨ q = p := by
  simp only [FS.writeFile]
  exact FS.mem_addPath fs p q

theorem isPrefixOf_self (p : FsPath) : p.isPrefixOf p = true := by
  simp [List.isPrefixOf_iff_prefix]

theorem isPrefixOf_append_right (p t : FsPath) :
    p.isPrefixOf (p ++ t) = true := by
  simp [List.isPrefixOf_iff_prefix]

theorem joinPath_empty (cf : FsPath) : joinPath cf "" = cf := by
  simp [joinPath]

theorem isPrefixOf_joinPath (cf : FsPath) (a : String) :
    cf.isPrefixOf (joinPath cf a) = true := by
  unfold joinPath
  split
  · exact isPrefixOf_self cf
  · exact isPrefixOf_append_right cf [a]

theorem FS.prefixClosed_parent (fs : FS) (h : fs.prefixClosed = true)
    (p : FsPath) (x : String) (hm : (p ++ [x]) ∈ fs.paths) : p ∈ fs.paths := by
  unfold FS.prefixClosed at h
  have h2 := List.all_eq_true.mp h _ hm
  simp at h2
  simpa using h2

/-!
## Row-by-row outcome trace for the bulk cache operation
-/

/-- The outcome of the `text2term.cache_ontology` call for each registry
row, in order, threading the filesystem exactly as the loop does. -/
def rowOutcomes (oracle : CacheOracle) (cf : FsPath) :
    List RegRow → FS → List (Except String Nat)
  | [], _ => []
  | row :: rest, fs =>
    let r := oracle row.url row.acronym cf fs
    r.2 :: rowOutcomes oracle cf rest r.1

/-- The stderr messages the loop writes: one per failed row, in row
order. -/
def failureMessages : List RegRow → List (Except String Nat) → List String
  | row :: rest, Except.error err :: outs =>
      ("Could not cache ontology " ++ row.acronym ++ " due to error: " ++
        err ++ "\n") :: failureMessages rest outs
  | _ :: rest, Except.ok _ :: outs => failureMessages rest outs
  | _, _ => []

theorem rowOutcomes_length (oracle : CacheOracle) (cf : FsPath)
    (rows : List RegRow) (fs : FS) :
    (rowOutcomes oracle cf rows fs).length = rows.length := by
  induction rows generalizing fs with
  | nil => rfl
  | cons row rest ih => simp [rowOutcomes, ih]

theorem dictHasKey_map_replace (d : List (String × Nat)) (k a : String)
    (v : Nat) :
    dictHasKey (d.map (fun kv => if kv.1 = k then (k, v) else kv)) a =
      dictHasKey d a := by
  induction d with
  | nil => rfl
  | cons kv rest ih =>
    by_cases hkv : kv.1 = k
    · simp only [dictHasKey, List.map_cons, List.any_cons] at *
      rw [ih]
      simp [hkv]
    · simp only [dictHasKey, List.map_cons, List.any_cons] at *
      rw [ih]
      simp [hkv]

theorem dictHasKey_dictUpdate (d : List (String × Nat)) (k a : String)
    (v : Nat) :
    dictHasKey (dictUpdate d k v) a = (dictHasKey d a || decide (a = k)) := by
  unfold dictUpdate
  split
  · rename_i h
    rw [dictHasKey_map_replace]
    by_cases hak : a = k
    · subst hak
      have h2 : dictHasKey d a = true := h
      rw [h2]
      simp
    · simp [hak]
  · unfold dictHasKey
    rw [List.any_append]
    simp only [List.any_cons, List.any_nil, Bool.or_false]
    congr 1
    exact decide_eq_decide.mpr ⟨fun h => h.symm, fun h => h.symm⟩

theorem cacheRows_stderr (oracle : CacheOracle) (cf : FsPath)
    (rows : List RegRow) (acc : List (String × Nat)) (s : CacheState) :
    (cacheRows oracle cf rows acc s).2.stderr =
      s.stderr ++ failureMessages rows (rowOutcomes oracle cf rows s.fs) := by
  induction rows generalizing acc s with
  | nil => simp [cacheRows, rowOutcomes, failureMessages]
  | cons row rest ih =>
    simp only [cacheRows, rowOutcomes]
    cases hres : (oracle row.url row.acronym cf s.fs).2 with
    | ok cache =>
        simp only [hres, failureMessages]
        exact ih _ _
    | error err =>
        simp only [hres, failureMessages]
        rw [ih]
        simp

/-- Whether an oracle call outcome was a success (no exception). -/
def outcomeOk : Except String Nat → Bool
  | Except.ok _ => true
  | Except.error _ => false

theorem cacheRows_keys (oracle : CacheOracle) (cf : FsPath)
    (rows : List RegRow) (acc : List (String × Nat)) (s : CacheState)
    (a : String) :
    dictHasKey (cacheRows oracle cf rows acc s).1 a =
      (dictHasKey acc a ||
        (rows.zip (rowOutcomes oracle cf rows s.fs)).any
          (fun p => decide (a = p.1.acronym) && outcomeOk p.2)) := by
  induction rows generalizing acc s with
  | nil => simp [cacheRows, rowOutcomes]
  | cons row rest ih =>
    simp only [cacheRows, rowOutcomes]
    cases hres : (oracle row.url row.acronym cf s.fs).2 with
    | ok cache =>
        rw [ih]
        rw [dictHasKey_dictUpdate]
        simp only [hres, List.zip_cons_cons, List.any_cons, outcomeOk,
          Bool.and_true, Bool.or_assoc]
    | error err =>
        rw [ih]
        simp only [hres, List.zip_cons_cons, List.any_cons, outcomeOk,
          Bool.and_false, Bool.false_or]

theorem FS.pathExists_false_iff (fs : FS) (p : FsPath) :
    fs.pathExists p = false ↔ p ∉ fs.paths := by
  simp [FS.pathExists]

/-!
## Claim theorems
-/

/-- C1: Setting the cache base directory is process-wide configuration:
`set_cache_folder(p)` returns `p` and makes `get_cache_folder()` return
`p`; the only filesystem change is creating `p` (entries created under the
previous directory stay where they were); and every subsequent
`cache_exists` / `clear_cache` / store / load call that does not pass an
explicit `cache_folder` resolves against the new directory `p` (it behaves
exactly as if `p` had been passed explicitly). -/
theorem set_cache_folder_process_wide (p : FsPath) (s : CacheState) :
    (set_cache_folder p s).1 = p
    ∧ get_cache_folder (set_cache_folder p s).2 = p
    ∧ (set_cache_folder p s).2.fs = s.fs.makedirs p
    ∧ (∀ q, s.fs.pathExists q = true →
        (set_cache_folder p s).2.fs.pathExists q = true)
    ∧ (∀ a, cache_exists a none (set_cache_folder p s).2 =
        cache_exists a (some p) (set_cache_folder p s).2)
    ∧ (∀ a, clear_cache a none (set_cache_folder p s).2 =
        clear_cache a (some p) (set_cache_folder p s).2)
    ∧ (∀ a idx, store a idx none (set_cache_folder p s).2 =
        store a idx (some p) (set_cache_folder p s).2)
    ∧ (∀ a, load a none (set_cache_folder p s).2 =
        load a (some p) (set_cache_folder p s).2) :=
  ⟨rfl, rfl, rfl,
   fun q h => FS.pathExists_makedirs_mono s.fs p q h,
   fun _ => rfl, fun _ => rfl, fun _ _ => rfl, fun _ => rfl⟩

/-- C5: `cache_exists(acronym, folder)` returns exactly the existence of
the directory named by the acronym under the cache root (with the default
root when none is passed), and it never inspects the serialized artifact
data: changing the artifact contents of the filesystem leaves its answer
unchanged. -/
theorem cache_exists_directory_sole_signal (a : String) (cf : FsPath)
    (s : CacheState) :
    cache_exists a (some cf) s = s.fs.pathExists (joinPath cf a)
    ∧ cache_exists a none s =
        s.fs.pathExists (joinPath s.defaultCacheFolder a)
    ∧ (∀ c, cache_exists a (some cf)
        { s with fs := { s.fs with contents := c } } =
          cache_exists a (some cf) s) :=
  ⟨rfl, rfl, fun _ => rfl⟩

/-- C9: Setting the cache base directory is not a pure configuration
change: `set_cache_folder(p)` creates the directory `p` on disk (if
missing) and returns `p`; likewise constructing an `OntologyCache` creates
its cache folder on disk, both with an explicit folder and with the
default one. -/
theorem set_cache_folder_creates_directory (p : FsPath) (a : String)
    (cf : FsPath) (s : CacheState) :
    (set_cache_folder p s).1 = p
    ∧ (set_cache_folder p s).2.fs.pathExists p = true
    ∧ (OntologyCache.init a (some cf) s).2.fs.pathExists cf = true
    ∧ (OntologyCache.init a none s).2.fs.pathExists s.defaultCacheFolder
        = true :=
  ⟨rfl, FS.pathExists_makedirs_self s.fs p,
   FS.pathExists_makedirs_self s.fs cf,
   FS.pathExists_makedirs_self s.fs s.defaultCacheFolder⟩

/-- C3: Calling `clear_cache` on a cache entry that does not exist on disk
is a no-op that writes a report message to the error stream and does not
raise: the filesystem and the configured default folder are unchanged, the
only effect is one stderr line, and every cache entry reads exactly as
before. -/
theorem clear_cache_missing_entry_noop (a : String) (cf : FsPath)
    (s : CacheState)
    (h : s.fs.pathExists (if a ≠ "" then joinPath cf a else cf) = false) :
    (clear_cache a (some cf) s).fs = s.fs
    ∧ (clear_cache a (some cf) s).defaultCacheFolder = s.defaultCacheFolder
    ∧ (clear_cache a (some cf) s).stderr = s.stderr ++
        ["Cache directory " ++
          String.intercalate "/" (if a ≠ "" then joinPath cf a else cf) ++
          " does not exist\n"]
    ∧ (∀ b g, cache_exists b g (clear_cache a (some cf) s) =
        cache_exists b g s) := by
  have hred : clear_cache a (some cf) s =
      { s with stderr := s.stderr ++
          ["Cache directory " ++
            String.intercalate "/" (if a ≠ "" then joinPath cf a else cf) ++
            " does not exist\n"] } := by
    simp only [clear_cache, resolveFolder]
    rw [if_neg (by simp only [ne_eq, ite_not] at h; simp [h])]
  rw [hred]
  exact ⟨rfl, rfl, rfl, fun b g => rfl⟩

/-- C4: After caching an ontology under an acronym (writing its cache
entry) and then clearing that acronym's entry, `cache_exists` returns
false and a subsequent cache load fails with `CacheMiss`. -/
theorem cache_then_clear_then_miss (a : String) (idx : Nat) (cf : FsPath)
    (s : CacheState) :
    cache_exists a (some cf)
      (clear_cache a (some cf) (store a idx (some cf) s)) = false
    ∧ load a (some cf)
        (clear_cache a (some cf) (store a idx (some cf) s)) =
      Except.error CacheError.cacheMiss := by
  have hcd : (if a ≠ "" then joinPath cf a else cf) = joinPath cf a := by
    by_cases ha : a = ""
    · subst ha
      simp [joinPath]
    · simp [ha]
  have h1 : (store a idx (some cf) s).fs.pathExists (joinPath cf a)
      = true := by
    simp only [store, resolveFolder]
    rw [FS.pathExists_true_iff, FS.mem_writeFile]
    left
    rw [FS.mem_makedirs]
    exact Or.inr (self_mem_pathAncestors _)
  have hred : clear_cache a (some cf) (store a idx (some cf) s) =
      { store a idx (some cf) s with
          fs := (store a idx (some cf) s).fs.rmtree (joinPath cf a),
          stderr := (store a idx (some cf) s).stderr ++
            ["Cache has been cleared successfully\n"] } := by
    simp only [clear_cache, resolveFolder, hcd]
    rw [if_pos h1]
  have hgone : ((store a idx (some cf) s).fs.rmtree
      (joinPath cf a)).pathExists (joinPath cf a) = false := by
    rw [FS.pathExists_false_iff]
    intro hmem
    have h2 := (FS.mem_rmtree _ _ _).mp hmem
    have h3 := isPrefixOf_self (joinPath cf a)
    rw [h2.2] at h3
    exact Bool.false_ne_true h3
  constructor
  · rw [hred]
    exact hgone
  · rw [hred]
    simp only [load, resolveFolder]
    rw [if_neg (by simp [hgone])]

/-- C7: `clear_cache` with the empty-string default acronym removes the
entire cache base directory: afterwards, on a parent-closed filesystem, no
cached entry exists for any acronym under that folder. -/
theorem clear_cache_all_removes_every_entry (cf : FsPath) (s : CacheState)
    (h : s.fs.prefixClosed = true) :
    ∀ a, cache_exists a (some cf) (clear_cache "" (some cf) s) = false := by
  intro a
  by_cases hex : s.fs.pathExists cf = true
  · have hred : clear_cache "" (some cf) s =
        { s with fs := s.fs.rmtree cf,
                 stderr := s.stderr ++
                   ["Cache has been cleared successfully\n"] } := by
      simp only [clear_cache, resolveFolder, ne_eq, not_true_eq_false,
        if_false]
      rw [if_pos hex]
    rw [hred]
    show (s.fs.rmtree cf).pathExists (joinPath cf a) = false
    rw [FS.pathExists_false_iff]
    intro hmem
    have h2 := (FS.mem_rmtree _ _ _).mp hmem
    have h3 := isPrefixOf_joinPath cf a
    rw [h2.2] at h3
    exact Bool.false_ne_true h3
  · have hred : clear_cache "" (some cf) s =
        { s with stderr := s.stderr ++
            ["Cache directory " ++ String.intercalate "/" cf ++
              " does not exist\n"] } := by
      simp only [clear_cache, resolveFolder, ne_eq, not_true_eq_false,
        if_false]
      rw [if_neg hex]
    rw [hred]
    show s.fs.pathExists (joinPath cf a) = false
    by_cases ha : a = ""
    · subst ha
      rw [joinPath_empty]
      exact Bool.not_eq_true _ |>.mp hex
    · rw [FS.pathExists_false_iff]
      intro hmem
      have hmem2 : cf ++ [a] ∈ s.fs.paths := by
        simpa [joinPath, ha] using hmem
      have h2 := FS.prefixClosed_parent s.fs h cf a hmem2
      exact hex ((FS.pathExists_true_iff _ _).mpr h2)

/-- C10: When the registry path does not name an existing file (after the
cache folder has been created), `cache_ontology_set` raises
`FileNotFoundError` without processing any registry row: no entry is
cached and no partial dictionary is returned — yet the cache folder
directory has been created on disk before the check. -/
theorem cache_ontology_set_missing_registry (oracle : CacheOracle)
    (regPath : FsPath) (rows : List RegRow) (cf : FsPath) (s : CacheState)
    (h : (s.fs.makedirs cf).pathExists regPath = false) :
    (cache_ontology_set oracle regPath rows (some cf) s).1 =
      Except.error (RegistryError.fileNotFound regPath)
    ∧ (cache_ontology_set oracle regPath rows (some cf) s).2 =
        { s with fs := s.fs.makedirs cf }
    ∧ (cache_ontology_set oracle regPath rows (some cf) s).2.fs.pathExists
        cf = true := by
  have hred : cache_ontology_set oracle regPath rows (some cf) s =
      (Except.error (RegistryError.fileNotFound regPath),
        { s with fs := s.fs.makedirs cf }) := by
    simp only [cache_ontology_set, resolveFolder]
    rw [if_neg (by simp [h])]
  rw [hred]
  exact ⟨rfl, rfl, FS.pathExists_makedirs_self s.fs cf⟩

/-- C2: `cache_ontology_set` over an existing registry processes each row
independently: the call returns normally (no exception escapes the loop)
with the dictionary accumulated over all rows; every row is reached (one
oracle outcome per row); the dictionary's keys are exactly the acronyms of
the rows whose caching succeeded; and stderr receives exactly one error
message per failed row. -/
theorem cache_ontology_set_rows_independent (oracle : CacheOracle)
    (regPath : FsPath) (rows : List RegRow) (cf : FsPath) (s : CacheState)
    (hreg : (s.fs.makedirs cf).pathExists regPath = true) :
    (cache_ontology_set oracle regPath rows (some cf) s).1 =
      Except.ok (cacheRows oracle cf rows []
        { s with fs := s.fs.makedirs cf }).1
    ∧ (rowOutcomes oracle cf rows (s.fs.makedirs cf)).length = rows.length
    ∧ (∀ a, dictHasKey (cacheRows oracle cf rows []
        { s with fs := s.fs.makedirs cf }).1 a =
        (rows.zip (rowOutcomes oracle cf rows (s.fs.makedirs cf))).any
          (fun p => decide (a = p.1.acronym) && outcomeOk p.2))
    ∧ (cache_ontology_set oracle regPath rows (some cf) s).2.stderr =
        s.stderr ++
          failureMessages rows (rowOutcomes oracle cf rows
            (s.fs.makedirs cf)) := by
  have hred : cache_ontology_set oracle regPath rows (some cf) s =
      (Except.ok (cacheRows oracle cf rows []
          { s with fs := s.fs.makedirs cf }).1,
        (cacheRows oracle cf rows [] { s with fs := s.fs.makedirs cf }).2)
      := by
    simp only [cache_ontology_set, resolveFolder]
    rw [if_pos hreg]
  refine ⟨?_, rowOutcomes_length oracle cf rows _, ?_, ?_⟩
  · rw [hred]
  · intro a
    rw [cacheRows_keys]
    simp [dictHasKey]
  · rw [hred]
    exact cacheRows_stderr oracle cf rows [] { s with fs := s.fs.makedirs cf }

/-- C6 counterexample: the claim "importing the module leaves the
process-wide urlopen unchanged" is false on the code: `onto_cache.py`
calls `disable_ssl_verification()` at module top level, so importing it
replaces `urllib.request.urlopen`. -/
theorem ontoCacheImport_patches_urlopen_counterexample :
    (ontoCacheImport { urlopen := UrlOpenFn.original }).urlopen ≠
      UrlOpenFn.original := by
  decide

/-- C6 (amended): Importing the module does trigger a global ambient side
effect: the top-level call to `disable_ssl_verification()` replaces the
process-wide urlopen with a patched closure over the previous one, and
transport-layer certificate validation is thereby disabled for every call
that does not pass its own SSL context (a caller-supplied context is still
honoured). -/
theorem ontoCacheImport_disables_ssl_by_default (s : NetState) :
    (ontoCacheImport s).urlopen =
      UrlOpenFn.patched s.urlopen unverifiedContext
    ∧ effectiveContext
        (ontoCacheImport { urlopen := UrlOpenFn.original }).urlopen none =
      some unverifiedContext
    ∧ (∀ c, effectiveContext
        (ontoCacheImport { urlopen := UrlOpenFn.original }).urlopen
          (some c) = some c) :=
  ⟨rfl, rfl, fun _ => rfl⟩

/-- C8: For every `OntologyCache` instance, the instance attribute
`acronym` holds the construction-time string and shadows the
identically-named method of the class: Python attribute lookup on the
instance yields the string (not a callable), even though the class
dictionary does define an `acronym` method. -/
theorem ontologyCache_acronym_attribute_shadows_method (a : String)
    (cf : FsPath) (s : CacheState) :
    pyGetAttr (ontologyCacheInstanceDict a cf) ontologyCacheClassDict
      "acronym" = some (PyAttr.strVal a)
    ∧ PyAttr.isCallable (PyAttr.strVal a) = false
    ∧ ontologyCacheClassDict.lookup "acronym" =
        some (PyAttr.boundMethod "acronym")
    ∧ (OntologyCache.init a (some cf) s).1.acronym = a := by
  refine ⟨?_, rfl, ?_, rfl⟩
  · simp [pyGetAttr, ontologyCacheInstanceDict]
  · decide

/-!
## Concrete witness states
-/

/-- A state whose filesystem holds only the directory `c` (no cache entry
inside it); the default folder is the module's initial `cache`. -/
def emptyCacheState : CacheState :=
  { fs := { paths := [[], ["c"]], contents := [] },
    defaultCacheFolder := initialDefaultCacheFolder, stderr := [] }

/-- A state whose filesystem holds the directory `c` with one cache entry
`c/efo` in it. -/
def populatedCacheState : CacheState :=
  { fs := { paths := [[], ["c"], ["c", "efo"]], contents := [] },
    defaultCacheFolder := initialDefaultCacheFolder, stderr := [] }

/-- A state whose filesystem holds only the registry file `reg.csv`. -/
def registryCacheState : CacheState :=
  { fs := { paths := [[], ["reg.csv"]], contents := [] },
    defaultCacheFolder := initialDefaultCacheFolder, stderr := [] }

/-- An external caching behaviour that fails on the acronym `bad` and
succeeds (with cache object `7`) on every other acronym, leaving the
filesystem as it was. -/
def flakyOracle : CacheOracle :=
  fun _ acronym _ fs =>
    (fs, if acronym = "bad" then Except.error "boom" else Except.ok 7)

/-- A registry of three rows whose middle row fails under `flakyOracle`. -/
def sampleRows : List RegRow :=
  [{ acronym := "efo", url := "u1" }, { acronym := "bad", url := "u2" },
   { acronym := "go", url := "u3" }]

/-- Witness for C2 at a concrete registry, oracle and state. -/
theorem cache_ontology_set_rows_independent_witness :
    (cache_ontology_set flakyOracle ["reg.csv"] sampleRows (some ["c"])
        registryCacheState).1 =
      Except.ok (cacheRows flakyOracle ["c"] sampleRows []
        { registryCacheState with
            fs := registryCacheState.fs.makedirs ["c"] }).1
    ∧ (rowOutcomes flakyOracle ["c"] sampleRows
        (registryCacheState.fs.makedirs ["c"])).length = sampleRows.length
    ∧ (∀ a, dictHasKey (cacheRows flakyOracle ["c"] sampleRows []
        { registryCacheState with
            fs := registryCacheState.fs.makedirs ["c"] }).1 a =
        (sampleRows.zip (rowOutcomes flakyOracle ["c"] sampleRows
          (registryCacheState.fs.makedirs ["c"]))).any
          (fun p => decide (a = p.1.acronym) && outcomeOk p.2))
    ∧ (cache_ontology_set flakyOracle ["reg.csv"] sampleRows (some ["c"])
        registryCacheState).2.stderr =
        registryCacheState.stderr ++
          failureMessages sampleRows (rowOutcomes flakyOracle ["c"]
            sampleRows (registryCacheState.fs.makedirs ["c"])) :=
  cache_ontology_set_rows_independent flakyOracle ["reg.csv"] sampleRows
    ["c"] registryCacheState (by decide)

/-- Witness for C3 at a concrete acronym, folder and state. -/
theorem clear_cache_missing_entry_noop_witness :
    (clear_cache "efo" (some ["c"]) emptyCacheState).fs =
      emptyCacheState.fs
    ∧ (clear_cache "efo" (some ["c"]) emptyCacheState).defaultCacheFolder =
        emptyCacheState.defaultCacheFolder
    ∧ (clear_cache "efo" (some ["c"]) emptyCacheState).stderr =
        emptyCacheState.stderr ++
          ["Cache directory " ++
            String.intercalate "/"
              (if "efo" ≠ "" then joinPath ["c"] "efo" else ["c"]) ++
            " does not exist\n"]
    ∧ (∀ b g, cache_exists b g (clear_cache "efo" (some ["c"])
        emptyCacheState) = cache_exists b g emptyCacheState) :=
  clear_cache_missing_entry_noop "efo" ["c"] emptyCacheState (by decide)

/-- Witness for C7 at a concrete folder, acronym and populated state. -/
theorem clear_cache_all_removes_every_entry_witness :
    cache_exists "efo" (some ["c"])
      (clear_cache "" (some ["c"]) populatedCacheState) = false :=
  clear_cache_all_removes_every_entry ["c"] populatedCacheState (by decide)
    "efo"

/-- Witness for C10 at a concrete missing registry path. -/
theorem cache_ontology_set_missing_registry_witness :
    (cache_ontology_set flakyOracle ["nope.csv"] sampleRows (some ["c"])
        emptyCacheState).1 =
      Except.error (RegistryError.fileNotFound ["nope.csv"])
    ∧ (cache_ontology_set flakyOracle ["nope.csv"] sampleRows (some ["c"])
        emptyCacheState).2 =
        { emptyCacheState with fs := emptyCacheState.fs.makedirs ["c"] }
    ∧ (cache_ontology_set flakyOracle ["nope.csv"] sampleRows (some ["c"])
        emptyCacheState).2.fs.pathExists ["c"] = true :=
  cache_ontology_set_missing_registry flakyOracle ["nope.csv"] sampleRows
    ["c"] emptyCacheState (by decide)
